import Mathlib

/-!
# Form controller of the bike price predictor (`src/src/App.js`)

A shallow embedding of the component `App`: its state, the brand effect that
derives the model list, the change handler and the submit handler.

Modelling conventions.

* A JavaScript object used as a name→code table is the list of its
  `Object.entries`, in that order (`Table`).  Keys of an object are distinct;
  theorems that depend on it say so with `(keys t).Nodup`.
* A Number is an IEEE double.  The numbers `parseInt` returns and the codes of
  a table are `NaN`, an infinity, or a double with an integral value, given by
  that integer (`JSNumber`, `Code`); `parseInt` rounds the integer it reads to
  the nearest double, ties to even (`roundToDouble`).  Minus zero is not told
  apart from zero.  The predicted price is only stored, never computed with,
  and is kept as an integer.
* A React state update is explicit state passing: every handler takes the
  state it closes over and returns the next state.
* The awaited request of `handleSubmit` is a parameter (`FetchResult`) carrying
  what the request settles to.
-/

namespace BikeForm

/-! ## Numbers -/

/-- The Number values met here: `NaN`, plus or minus `Infinity`, or a double
whose value is the integer `value`. -/
inductive JSNumber where
  | nan
  | infinity (negative : Bool)
  | finite (value : Int)
deriving DecidableEq

/-- How many low bits a natural number loses when it is cut to the 53 bits of
a double's significand; `fuel` bounds the halvings. -/
def excessBits : Nat → Nat → Nat
  | 0, _ => 0
  | fuel + 1, n => if n < 2 ^ 53 then 0 else excessBits fuel (n / 2) + 1

/-- The first power of two that no finite double reaches, 2^1024. -/
def doubleLimit : Nat := 2 ^ 256 * 2 ^ 256 * 2 ^ 256 * 2 ^ 256

/-- Round a natural number to the nearest double, ties to the even
significand; `none` when the result is beyond the finite doubles. -/
def roundToDouble (n : Nat) : Option Nat :=
  let e := excessBits n n
  let q := n / 2 ^ e
  let r := n % 2 ^ e
  let up := decide (2 ^ e < 2 * r) || (decide (2 * r = 2 ^ e) && decide (q % 2 = 1))
  let m := (if up then q + 1 else q) * 2 ^ e
  if m < doubleLimit then some m else none

/-- The Number for the integer of the given sign and magnitude. -/
def toNumber (negative : Bool) (n : Nat) : JSNumber :=
  match roundToDouble n with
  | none => JSNumber.infinity negative
  | some m => JSNumber.finite (if negative then -(m : Int) else (m : Int))

/-- The integer is the value of a double. -/
def IsDouble (n : Int) : Prop := roundToDouble n.natAbs = some n.natAbs

instance decidableIsDouble (n : Int) : Decidable (IsDouble n) := by
  unfold IsDouble
  infer_instance

/-- An integer code as a table holds it: a double with an integral value. -/
structure Code where
  val : Int
  exact : IsDouble val

instance decidableEqCode : DecidableEq Code := fun a b =>
  decidable_of_iff (a.val = b.val)
    ⟨fun h => by cases a; cases b; cases h; rfl, fun h => by cases h; rfl⟩

/-! ## Data model -/

/-- Name→code lookup table: the `Object.entries` of a JSON object. -/
abbrev Table := List (String × Code)

/-- State `mappings` (line 7).  `models` is optional because the brand effect
tests it for presence (line 49); `brands` and `locations` are used unguarded. -/
structure Mappings where
  brands : Table
  models : Option Table
  locations : Table
deriving DecidableEq

/-- State `formData` (lines 10-12): every input holds a string. -/
structure FormData where
  brand : String
  model : String
  location : String
  year : String
  kilometers : String
  power : String
  owner : String
deriving DecidableEq

/-- The `name` attribute of the seven form controls. -/
inductive Field where
  | brand
  | model
  | location
  | year
  | kilometers
  | power
  | owner
deriving DecidableEq

/-- Values the state `prediction` can hold: `null` (line 17, 80, 86), or what
`data.prediction` evaluates to (line 131): a number, or `undefined` when the
body has no such field. -/
inductive Prediction where
  | null
  | undefined
  | number (value : Int)
deriving DecidableEq

/-- The six pieces of state declared by `useState` (lines 7-19). -/
structure State where
  mappings : Mappings
  formData : FormData
  availableModels : Table
  prediction : Prediction
  error : String
  isLoading : Bool
deriving DecidableEq

/-- Initial values given to `useState` (lines 7-19). -/
def initialState : State :=
  { mappings := { brands := [], models := some [], locations := [] }
    formData :=
      { brand := "", model := "", location := "", year := "", kilometers := "",
        power := "", owner := "First Owner" }
    availableModels := []
    prediction := Prediction.null
    error := ""
    isLoading := false }

/-- Truthiness of a JavaScript string: every string but the empty one. -/
def truthy (s : String) : Bool := s != ""

/-- Read a form field: `formData[field]`. -/
def FormData.get (d : FormData) : Field → String
  | Field.brand => d.brand
  | Field.model => d.model
  | Field.location => d.location
  | Field.year => d.year
  | Field.kilometers => d.kilometers
  | Field.power => d.power
  | Field.owner => d.owner

/-- Object spread with one computed key: `{ ...prevData, [name]: value }`
(line 71). -/
def FormData.set (d : FormData) (name : Field) (value : String) : FormData :=
  match name with
  | Field.brand => { d with brand := value }
  | Field.model => { d with model := value }
  | Field.location => { d with location := value }
  | Field.year => { d with year := value }
  | Field.kilometers => { d with kilometers := value }
  | Field.power => { d with power := value }
  | Field.owner => { d with owner := value }

/-! ## `parseInt` (ECMAScript `parseInt(string)` with no radix argument) -/

/-- Code points of `StrWhiteSpaceChar`: white space and line terminators. -/
def isStrWhiteSpace (c : Char) : Bool :=
  [0x0009, 0x000A, 0x000B, 0x000C, 0x000D, 0x0020, 0x00A0, 0x1680,
   0x2000, 0x2001, 0x2002, 0x2003, 0x2004, 0x2005, 0x2006, 0x2007,
   0x2008, 0x2009, 0x200A, 0x2028, 0x2029, 0x202F, 0x205F, 0x3000,
   0xFEFF].contains c.toNat

/-- Value of a character as a digit: `0-9`, then letters `a-z` / `A-Z` for
ten to thirty-five. -/
def digitValue (c : Char) : Option Nat :=
  if 48 ≤ c.toNat ∧ c.toNat ≤ 57 then some (c.toNat - 48)
  else if 97 ≤ c.toNat ∧ c.toNat ≤ 122 then some (c.toNat - 87)
  else if 65 ≤ c.toNat ∧ c.toNat ≤ 90 then some (c.toNat - 55)
  else none

/-- Whether the character is a digit of the given radix. -/
def isRadixDigit (radix : Nat) (c : Char) : Bool :=
  match digitValue c with
  | some d => decide (d < radix)
  | none => false

/-- Mathematical value of a digit sequence in the given radix. -/
def digitsValue (radix : Nat) (ds : List Char) : Nat :=
  ds.foldl (fun acc c => acc * radix + (digitValue c).getD 0) 0

/-- Remove one leading sign; the flag tells whether it was a minus. -/
def stripSign : List Char → Bool × List Char
  | [] => (false, [])
  | c :: rest =>
    if c = '-' then (true, rest)
    else if c = '+' then (false, rest)
    else (false, c :: rest)

/-- Radix selection: a leading `0x` or `0X` is removed and selects sixteen,
anything else is read in base ten. -/
def stripHexPrefix : List Char → Nat × List Char
  | a :: b :: rest =>
    if a = '0' ∧ (b = 'x' ∨ b = 'X') then (16, rest) else (10, a :: b :: rest)
  | cs => (10, cs)

/-- The function `parseInt(string)`: skip leading white space, read a sign,
select the radix, take the longest run of digits; `NaN` when that run is empty,
otherwise the Number for the signed value of the run.  (An engine may drop
digits after the twentieth significant one; that latitude is not used.) -/
def parseInt (s : String) : JSNumber :=
  let trimmed := s.data.dropWhile isStrWhiteSpace
  let signed := stripSign trimmed
  let based := stripHexPrefix signed.2
  let ds := based.2.takeWhile (isRadixDigit based.1)
  if ds.isEmpty then JSNumber.nan
  else toNumber signed.1 (digitsValue based.1 ds)

/-! ## Decimal integer strings (the words of the specification) -/

/-- A decimal digit, `0` to `9`. -/
def isDecimalDigit (c : Char) : Bool := decide (48 ≤ c.toNat ∧ c.toNat ≤ 57)

/-- A decimal integer string: an optional minus sign, then one or more decimal
digits. -/
def IsDecimalString (s : String) : Prop :=
  match s.data with
  | [] => False
  | c :: rest =>
    if c = '-' then rest ≠ [] ∧ ∀ x ∈ rest, isDecimalDigit x = true
    else ∀ x ∈ c :: rest, isDecimalDigit x = true

instance decidableIsDecimalString (s : String) : Decidable (IsDecimalString s) := by
  unfold IsDecimalString
  split
  · infer_instance
  · split <;> infer_instance

/-- Positional value of a run of decimal digits, most significant first. -/
def digitsNumber (ds : List Char) : Nat :=
  Nat.ofDigits 10 ((ds.map (fun c => c.toNat - 48)).reverse)

/-- The integer a decimal integer string denotes. -/
def decimalValue (s : String) : Int :=
  match s.data with
  | [] => 0
  | c :: rest =>
    if c = '-' then -(digitsNumber rest : Int) else (digitsNumber (c :: rest) : Int)

/-- A decimal integer string that denotes an integer of magnitude at most
2^53, the range in which every integer is a double. -/
def IsSafeDecimal (s : String) : Prop :=
  IsDecimalString s ∧ (decimalValue s).natAbs ≤ 2 ^ 53

instance decidableIsSafeDecimal (s : String) : Decidable (IsSafeDecimal s) := by
  unfold IsSafeDecimal
  infer_instance

/-! ## Mappings load (lines 33-45) -/

/-- Fixed message of the `catch` branch of `fetchMappings` (line 41). -/
def connectivityMessage : String :=
  "Could not connect to the backend. Please ensure the Flask server is running."

/-- The function `fetchMappings`: the GET either resolves with `response.data`
(`some data`, line 37) or rejects (`none`, line 41). -/
def fetchMappings (s : State) : Option Mappings → State
  | some data => { s with mappings := data }
  | none => { s with error := connectivityMessage }

/-! ## Brand effect (lines 48-63) -/

/-- Own keys of a table: `Object.keys`. -/
def keys (t : Table) : List String := t.map Prod.fst

/-- Property read `t[name]`; `none` is `undefined`. -/
def Table.get (t : Table) (name : String) : Option Code :=
  (t.find? (fun e => e.1 == name)).map Prod.snd

/-- Strict equality `value === parseInt(...)` of a table value with a parsed
number: `undefined` and `NaN` equal nothing, a code is finite. -/
def strictEq : Option Code → JSNumber → Bool
  | some v, JSNumber.finite n => v.val == n
  | _, _ => false

/-- The method `String.prototype.startsWith`. -/
def startsWith (s p : String) : Bool := p.data.isPrefixOf s.data

/-- Lines 50-52: the first key of `brands` whose value equals the parsed
brand. -/
def selectedBrandName (brands : Table) (brand : String) : Option String :=
  (keys brands).find? (fun brandName => strictEq (brands.get brandName) (parseInt brand))

/-- The effect with dependencies `[formData.brand, mappings]` (lines 48-63). -/
def brandEffect (s : State) : State :=
  match truthy s.formData.brand, s.mappings.models with
  | true, some models =>
    match selectedBrandName s.mappings.brands s.formData.brand with
    | some name =>
      if truthy name then
        { s with availableModels := models.filter (fun e => startsWith e.1 name) }
      else s
    | none => s
  | _, _ => { s with availableModels := [] }

/-! ## Change handler (lines 67-81) -/

/-- The handler `handleChange` applied to an event of the control `name` carrying
`value`. -/
def handleChange (s : State) (name : Field) (value : String) : State :=
  let newData := s.formData.set name value
  let newData := if name = Field.brand then { newData with model := "" } else newData
  { s with formData := newData, error := "", prediction := Prediction.null }

/-! ## Submit handler (lines 83-140) -/

/-- Line 89. -/
def requiredFields : List Field :=
  [Field.brand, Field.model, Field.location, Field.year, Field.kilometers, Field.power]

/-- Line 91. -/
def validationMessage : String := "Please fill in all the fields."

/-- Request body (lines 101-116): six parsed numbers and the four owner
indicators `owner_Second Owner`, `owner_Third Owner`,
`owner_Fourth Owner Or More`, `owner_Unknown`. -/
structure Payload where
  brand : JSNumber
  model : JSNumber
  location : JSNumber
  year : JSNumber
  kilometers : JSNumber
  power : JSNumber
  owner_Second_Owner : Nat
  owner_Third_Owner : Nat
  owner_Fourth_Owner_Or_More : Nat
  owner_Unknown : Nat
deriving DecidableEq

/-- The conditional `formData.owner === label ? 1 : 0`. -/
def indicator (owner label : String) : Nat := if owner = label then 1 else 0

/-- Lines 97-116. -/
def buildPayload (d : FormData) : Payload :=
  { brand := parseInt d.brand
    model := parseInt d.model
    location := parseInt d.location
    year := parseInt d.year
    kilometers := parseInt d.kilometers
    power := parseInt d.power
    owner_Second_Owner := indicator d.owner "Second Owner"
    owner_Third_Owner := indicator d.owner "Third Owner"
    owner_Fourth_Owner_Or_More := indicator d.owner "Fourth Owner Or More"
    owner_Unknown := indicator d.owner "Unknown" }

/-- Fields read from a parsed body that is not `null`: `prediction` and
`error`, each of which may be missing. -/
structure ResponseData where
  prediction : Option Int
  error : Option String
deriving DecidableEq

/-- The value `data` of line 124 once the body has parsed: JSON `null`, on
which a property read throws, or any other value, on which `data.error` and
`data.prediction` are read. -/
inductive Json where
  | null
  | object (data : ResponseData)
deriving DecidableEq

/-- Body of a response as line 124 meets it: `invalid` is not JSON and
`response.json()` rejects with an error of that message; `null` is JSON `null`
and `message` is that of the error thrown when `data.error` is read;
`object` is any other JSON value. -/
inductive Body where
  | invalid (message : String)
  | null (message : String)
  | object (data : ResponseData)
deriving DecidableEq

/-- What the awaited request settles to: `rejected` when `fetch` rejects with
an error of that message, `response` when it resolves. -/
inductive FetchResult where
  | rejected (message : String)
  | response (status : Nat) (body : Body)
deriving DecidableEq

/-- The attribute `response.ok`: status in the range 200-299. -/
def responseOk (status : Nat) : Bool := decide (200 ≤ status) && decide (status ≤ 299)

/-- Lines 85-87: what `handleSubmit` sets before anything else. -/
def submitBegin (s : State) : State :=
  { s with error := "", prediction := Prediction.null, isLoading := true }

/-- Lines 84-122, the part of `handleSubmit` that runs before the first
`await`: the next state and the payload of the request issued, if one is. -/
def submitCheck (s : State) : State × Option Payload :=
  let s1 := submitBegin s
  if requiredFields.any (fun field => !truthy (s.formData.get field)) then
    ({ s1 with error := validationMessage, isLoading := false }, none)
  else
    (s1, some (buildPayload s.formData))

/-- Message of the error thrown at line 127:
`data.error || "HTTP error! Status: " + response.status`. -/
def thrownMessage (status : Nat) (data : ResponseData) : String :=
  match data.error with
  | some message =>
    if truthy message then message else "HTTP error! Status: " ++ toString status
  | none => "HTTP error! Status: " ++ toString status

/-- The `catch` block (lines 135-139). -/
def catchError (s : State) (message : String) : State :=
  { s with error := message, isLoading := false }

/-- Lines 124-133 and the `catch`: the state once the request has settled, and
the value of `data` captured by the timer callback when one is scheduled.
The body is parsed (line 124) before the status is tested (line 126). -/
def submitSettle (s : State) : FetchResult → State × Option Json
  | FetchResult.rejected message => (catchError s message, none)
  | FetchResult.response _ (Body.invalid message) => (catchError s message, none)
  | FetchResult.response status (Body.null message) =>
    if !responseOk status then (catchError s message, none)
    else (s, some Json.null)
  | FetchResult.response status (Body.object data) =>
    if !responseOk status then (catchError s (thrownMessage status data), none)
    else (s, some (Json.object data))

/-- The callback given to `setTimeout` (lines 130-133).  It runs outside the
`try`: on `null` the read of `data.prediction` throws before either setter is
called. -/
def timerCallback (s : State) : Json → State
  | Json.null => s
  | Json.object data =>
    { s with
      prediction :=
        match data.prediction with
        | some p => Prediction.number p
        | none => Prediction.undefined
      isLoading := false }

/-- One whole run of `handleSubmit`, to the end of its last callback: the final
state and the requests issued to the prediction endpoint. -/
def handleSubmit (s : State) (result : FetchResult) : State × List Payload :=
  match submitCheck s with
  | (s1, none) => (s1, [])
  | (s1, some payload) =>
    match submitSettle s1 result with
    | (s2, none) => (s2, [payload])
    | (s2, some data) => (timerCallback s2 data, [payload])

/-- Some required field is empty: the form does not pass validation. -/
def Incomplete (d : FormData) : Prop :=
  d.brand = "" ∨ d.model = "" ∨ d.location = "" ∨ d.year = "" ∨ d.kilometers = "" ∨
    d.power = ""

instance decidableIncomplete (d : FormData) : Decidable (Incomplete d) := by
  unfold Incomplete
  infer_instance

/-- Options of the owner control (lines 218-222). -/
def ownerOptions : List String :=
  ["First Owner", "Second Owner", "Third Owner", "Fourth Owner Or More", "Unknown"]

/-! ## The component as a transition system

Each handler, continuation and callback runs to completion as one task; the
tasks of one submission (the submit event, the settling of its request, its
timer callback) may be separated by other tasks. -/

/-- The component between two tasks: its state, whether the mappings request
of the mount effect is still unsettled, the number of requests issued to the
prediction endpoint that have not settled, and the values captured by the
timer callbacks still scheduled. -/
structure Session where
  state : State
  loadPending : Bool
  awaiting : Nat
  timers : List Json
deriving DecidableEq

/-- The component at mount: the mount effect (lines 33-45, dependencies `[]`)
has issued its one mappings request. -/
def initialSession : Session :=
  { state := initialState, loadPending := true, awaiting := 0, timers := [] }

/-- The tasks that change the state. -/
inductive Event where
  | mappingsLoaded (data : Mappings)
  | mappingsFailed
  | render
  | change (name : Field) (value : String)
  | submitEvent
  | settle (result : FetchResult)
  | timer
deriving DecidableEq

/-- One task.  The mappings request settles once; `settle` needs a request
that has not settled and `timer` a scheduled callback; `render` runs the brand
effect.  A change event and a submit event run their handler whatever the
state: the handlers test neither the options of a control nor `isLoading`. -/
def Session.step (σ : Session) : Event → Session
  | Event.mappingsLoaded data =>
    if σ.loadPending then
      { σ with state := fetchMappings σ.state (some data), loadPending := false }
    else σ
  | Event.mappingsFailed =>
    if σ.loadPending then
      { σ with state := fetchMappings σ.state none, loadPending := false }
    else σ
  | Event.render => { σ with state := brandEffect σ.state }
  | Event.change name value => { σ with state := handleChange σ.state name value }
  | Event.submitEvent =>
    match submitCheck σ.state with
    | (s1, none) => { σ with state := s1 }
    | (s1, some _) => { σ with state := s1, awaiting := σ.awaiting + 1 }
  | Event.settle result =>
    match σ.awaiting with
    | 0 => σ
    | n + 1 =>
      match submitSettle σ.state result with
      | (s1, none) => { σ with state := s1, awaiting := n }
      | (s1, some data) => { σ with state := s1, awaiting := n, timers := σ.timers ++ [data] }
  | Event.timer =>
    match σ.timers with
    | [] => σ
    | data :: rest => { σ with state := timerCallback σ.state data, timers := rest }

/-- Run a sequence of tasks. -/
def Session.run (σ : Session) (events : List Event) : Session :=
  events.foldl Session.step σ

/-- Prediction and error are not both present. -/
def Exclusive (s : State) : Prop :=
  (s.prediction ≠ Prediction.null → s.error = "") ∧
  (s.error ≠ "" → s.prediction = Prediction.null)

/-- What the rendered controls allow of one event: a brand other than the
empty option can be picked only when the brand select has options (lines
164-169), and the form can be submitted only while the submit button is
enabled, that is while `isLoading` is false (line 227). -/
def allowedByControls (s : State) : Event → Bool
  | Event.change Field.brand value => decide (value = "") || !s.mappings.brands.isEmpty
  | Event.submitEvent => !s.isLoading
  | _ => true

/-- Every event of the sequence is allowed by the controls as rendered when it
happens. -/
def throughControls (σ : Session) : List Event → Bool
  | [] => true
  | event :: rest =>
    allowedByControls σ.state event && throughControls (σ.step event) rest

/-- Invariant of the transition system: exclusion; at most one submission in
progress, and while one is in progress the flag is up, the error is empty and,
until its request settles, the prediction is `null`; while the mappings
request is unsettled no brand is picked and no prediction is held or due. -/
def Safe (σ : Session) : Prop :=
  Exclusive σ.state ∧
  σ.awaiting + σ.timers.length ≤ 1 ∧
  (0 < σ.awaiting + σ.timers.length → σ.state.isLoading = true ∧ σ.state.error = "") ∧
  (0 < σ.awaiting → σ.state.prediction = Prediction.null) ∧
  (σ.loadPending = true →
    σ.state.mappings.brands = [] ∧ σ.state.formData.brand = "" ∧
      σ.state.prediction = Prediction.null ∧ σ.awaiting = 0 ∧ σ.timers = [])

/-! ## Concrete inputs -/

/-- Code 1. -/
def code1 : Code := ⟨1, by decide⟩

/-- Code 2. -/
def code2 : Code := ⟨2, by decide⟩

/-- Code 5. -/
def code5 : Code := ⟨5, by decide⟩

/-- Code 10. -/
def code10 : Code := ⟨10, by decide⟩

/-- Mappings of the spec's worked example. -/
def exampleMappings : Mappings :=
  { brands := [("honda", code1)], models := some [("honda cb", code10)],
    locations := [("pune", code5)] }

/-- Loaded mappings and the filled form of the spec's worked example. -/
def exampleState : State :=
  { initialState with
    mappings := exampleMappings
    formData :=
      { brand := "1", model := "10", location := "5", year := "2020",
        kilometers := "25000", power := "150", owner := "First Owner" } }

/-- The worked example with the owner changed to "Second Owner". -/
def secondOwnerState : State :=
  { exampleState with formData := { exampleState.formData with owner := "Second Owner" } }

/-- The worked example with the year 2^53 + 1 typed into the year input. -/
def bigYearState : State :=
  { exampleState with formData := { exampleState.formData with year := "9007199254740993" } }

/-- A brand table whose only name is the empty string. -/
def emptyNameState : State :=
  { initialState with
    mappings := { brands := [("", code1)], models := some [("x", code2)], locations := [] }
    formData := { initialState.formData with brand := "1" } }

/-- Brand code 7 names no brand while the model list of an earlier brand is
still held. -/
def staleState : State :=
  { initialState with
    mappings := exampleMappings
    formData := { initialState.formData with brand := "7" }
    availableModels := [("honda cb", code10)] }

/-- The same held list with no brand selected. -/
def clearedState : State :=
  { staleState with formData := { staleState.formData with brand := "" } }

/-- A page that is not JSON, as `response.json()` reports it. -/
def htmlBody : Body := Body.invalid "Unexpected token < in JSON at position 0"

/-- The body `null`, with the message of the error a read of `data.error`
throws. -/
def nullBody : Body := Body.null "Cannot read properties of null (reading error)"

/-- The mappings load, the form is filled through the controls, and submit
runs twice before either request settles: the first request is answered with
a prediction, the second is refused, then the timer of the first fires. -/
def doubleSubmitEvents : List Event :=
  [Event.mappingsLoaded exampleMappings, Event.render,
   Event.change Field.brand "1", Event.render,
   Event.change Field.model "10", Event.change Field.location "5",
   Event.change Field.year "2020", Event.change Field.kilometers "25000",
   Event.change Field.power "150",
   Event.submitEvent,
   Event.submitEvent,
   Event.settle (FetchResult.response 200
     (Body.object { prediction := some 125000, error := none })),
   Event.settle (FetchResult.response 400
     (Body.object { prediction := none, error := some "bad input" })),
   Event.timer]

/-- The mappings load, the form is filled through the controls and submitted
twice, each time with the button enabled: refused by the backend, then
answered. -/
def twoSubmissionsEvents : List Event :=
  [Event.mappingsLoaded exampleMappings, Event.render,
   Event.change Field.brand "1", Event.render,
   Event.change Field.model "10", Event.change Field.location "5",
   Event.change Field.year "2020", Event.change Field.kilometers "25000",
   Event.change Field.power "150",
   Event.submitEvent,
   Event.settle (FetchResult.response 400
     (Body.object { prediction := none, error := some "bad input" })),
   Event.submitEvent,
   Event.settle (FetchResult.response 200
     (Body.object { prediction := some 125000, error := none })),
   Event.timer]

/-- The mappings load fails, so the brand select stays without options; a
year is typed and the form submitted. -/
def failedLoadEvents : List Event :=
  [Event.mappingsFailed, Event.render, Event.change Field.year "2020", Event.submitEvent]

/-! ## Rounding to a double -/

theorem excessBits_small (n : Nat) (h : n < 2 ^ 53) : excessBits n n = 0 := by
  cases n with
  | zero => rfl
  | succ k => rw [excessBits, if_pos h]

theorem doubleLimit_eq : doubleLimit = 2 ^ 1024 := by
  rw [doubleLimit, ← pow_add, ← pow_add, ← pow_add]

theorem doubleLimit_gt : 2 ^ 53 < doubleLimit := by decide

theorem roundToDouble_small (n : Nat) (h : n < 2 ^ 53) : roundToDouble n = some n := by
  have hlt : n < doubleLimit := lt_trans h doubleLimit_gt
  simp [roundToDouble, excessBits_small n h, hlt, Nat.mod_one]

theorem roundToDouble_safe (n : Nat) (h : n ≤ 2 ^ 53) : roundToDouble n = some n := by
  rcases Nat.lt_or_ge n (2 ^ 53) with hlt | hge
  · exact roundToDouble_small n hlt
  · have hn : n = 2 ^ 53 := le_antisymm h hge
    subst hn
    decide

theorem toNumber_of_exact (negative : Bool) (n : Nat) (h : roundToDouble n = some n) :
    toNumber negative n = JSNumber.finite (if negative then -(n : Int) else (n : Int)) := by
  simp [toNumber, h]

/-! ## Decimal strings -/

theorem digitValue_of_decimal (c : Char) (h : isRadixDigit 10 c = true) :
    48 ≤ c.toNat ∧ c.toNat ≤ 57 := by
  unfold isRadixDigit digitValue at h
  split_ifs at h with h1 h2 h3
  · exact h1
  · simp at h; omega
  · simp at h; omega

theorem decimal_not_space (c : Char) (h : 48 ≤ c.toNat ∧ c.toNat ≤ 57) :
    isStrWhiteSpace c = false := by
  simp only [isStrWhiteSpace, List.contains_eq_any_beq, List.any_cons, List.any_nil,
    Bool.or_false, Bool.or_eq_false_iff, beq_eq_false_iff_ne, ne_eq]
  omega

theorem decimal_ne_of_toNat (c k : Char) (h : 48 ≤ c.toNat ∧ c.toNat ≤ 57)
    (hk : k.toNat < 48 ∨ 57 < k.toNat) : c ≠ k := by
  rintro rfl
  omega

theorem digitChar_decimal (d : Nat) (h : d < 10) :
    isRadixDigit 10 (Nat.digitChar d) = true ∧ digitValue (Nat.digitChar d) = some d := by
  interval_cases d <;> decide

theorem toDigitsCore_append (n : Nat) :
    ∀ fuel ds, n < fuel →
      Nat.toDigitsCore 10 fuel n ds = Nat.toDigitsCore 10 (n + 1) n [] ++ ds := by
  induction n using Nat.strong_induction_on with
  | _ n ih =>
    intro fuel ds hfuel
    obtain ⟨f, rfl⟩ : ∃ f, fuel = f + 1 := ⟨fuel - 1, by omega⟩
    by_cases h0 : n / 10 = 0
    · simp [Nat.toDigitsCore, h0]
    · have hlt : n / 10 < n := by omega
      have hf : n / 10 < f := by omega
      simp only [Nat.toDigitsCore, h0, if_false]
      rw [ih (n / 10) hlt f _ hf, ih (n / 10) hlt n _ hlt]
      simp

theorem toDigits_step (n : Nat) (h : n / 10 ≠ 0) :
    Nat.toDigits 10 n = Nat.toDigits 10 (n / 10) ++ [Nat.digitChar (n % 10)] := by
  have hlt : n / 10 < n := by omega
  unfold Nat.toDigits
  rw [Nat.toDigitsCore]
  simp only [h, if_false]
  rw [toDigitsCore_append (n / 10) n _ hlt]

theorem toDigits_small (n : Nat) (h : n / 10 = 0) :
    Nat.toDigits 10 n = [Nat.digitChar (n % 10)] := by
  simp [Nat.toDigits, Nat.toDigitsCore, h]

theorem digitsValue_append (radix : Nat) (ds : List Char) (c : Char) :
    digitsValue radix (ds ++ [c]) = digitsValue radix ds * radix + (digitValue c).getD 0 := by
  simp [digitsValue, List.foldl_append]

theorem toDigits_spec (n : Nat) :
    Nat.toDigits 10 n ≠ [] ∧ (∀ c ∈ Nat.toDigits 10 n, isRadixDigit 10 c = true) ∧
      digitsValue 10 (Nat.toDigits 10 n) = n := by
  induction n using Nat.strong_induction_on with
  | _ n ih =>
    have hd := digitChar_decimal (n % 10) (Nat.mod_lt _ (by decide))
    by_cases h0 : n / 10 = 0
    · rw [toDigits_small n h0]
      refine ⟨by simp, by simpa using hd.1, ?_⟩
      simp [digitsValue, hd.2]
      omega
    · have hlt : n / 10 < n := by omega
      obtain ⟨_, hall, hval⟩ := ih (n / 10) hlt
      rw [toDigits_step n h0]
      refine ⟨by simp, ?_, ?_⟩
      · intro c hc
        rcases List.mem_append.1 hc with hc | hc
        · exact hall c hc
        · simp at hc; rw [hc]; exact hd.1
      · rw [digitsValue_append, hval, hd.2]
        simp
        omega

theorem stripHexPrefix_decimal (ds : List Char) (hall : ∀ c ∈ ds, isRadixDigit 10 c = true) :
    stripHexPrefix ds = (10, ds) := by
  match ds, hall with
  | [], _ => rfl
  | [_], _ => rfl
  | a :: b :: rest, hall =>
    have hb := digitValue_of_decimal b (hall b (by simp))
    have h1 : b ≠ 'x' := decimal_ne_of_toNat b _ hb (by decide)
    have h2 : b ≠ 'X' := decimal_ne_of_toNat b _ hb (by decide)
    simp [stripHexPrefix, h1, h2]

theorem takeWhile_decimal (ds : List Char) (hall : ∀ c ∈ ds, isRadixDigit 10 c = true) :
    ds.takeWhile (isRadixDigit 10) = ds := by
  induction ds with
  | nil => rfl
  | cons c rest ih =>
    have hc := hall c (by simp)
    simp only [List.takeWhile_cons, hc, if_true]
    rw [ih (fun x hx => hall x (by simp [hx]))]

theorem parseInt_unsigned (c : Char) (rest : List Char)
    (hall : ∀ x ∈ c :: rest, isRadixDigit 10 x = true) :
    parseInt ⟨c :: rest⟩ = toNumber false (digitsValue 10 (c :: rest)) := by
  have hc := digitValue_of_decimal c (hall c (by simp))
  have hs : isStrWhiteSpace c = false := decimal_not_space c hc
  have h1 : c ≠ '-' := decimal_ne_of_toNat c _ hc (by decide)
  have h2 : c ≠ '+' := decimal_ne_of_toNat c _ hc (by decide)
  simp [parseInt, List.dropWhile_cons, hs, stripSign, h1, h2,
    stripHexPrefix_decimal _ hall, takeWhile_decimal _ hall]

theorem parseInt_negative (c : Char) (rest : List Char)
    (hall : ∀ x ∈ c :: rest, isRadixDigit 10 x = true) :
    parseInt ⟨'-' :: c :: rest⟩ = toNumber true (digitsValue 10 (c :: rest)) := by
  have hs : isStrWhiteSpace '-' = false := by decide
  simp [parseInt, List.dropWhile_cons, hs, stripSign,
    stripHexPrefix_decimal _ hall, takeWhile_decimal _ hall]

theorem parseInt_toString (n : Int) (h : IsDouble n) :
    parseInt (toString n) = JSNumber.finite n := by
  unfold IsDouble at h
  match n, h with
  | Int.ofNat m, h =>
    obtain ⟨hne, hall, hval⟩ := toDigits_spec m
    have hs : toString (Int.ofNat m) = ⟨Nat.toDigits 10 m⟩ := rfl
    rw [hs]
    match hd : Nat.toDigits 10 m, hne with
    | c :: rest, _ =>
      rw [hd] at hall hval
      rw [parseInt_unsigned c rest hall, hval, toNumber_of_exact false m h]
      rfl
  | Int.negSucc m, h =>
    obtain ⟨hne, hall, hval⟩ := toDigits_spec (m + 1)
    have hs : toString (Int.negSucc m) = ⟨'-' :: Nat.toDigits 10 (m + 1)⟩ := rfl
    rw [hs]
    match hd : Nat.toDigits 10 (m + 1), hne with
    | c :: rest, _ =>
      rw [hd] at hall hval
      rw [parseInt_negative c rest hall, hval, toNumber_of_exact true (m + 1) h]
      rfl

theorem parseInt_code (c : Code) : parseInt (toString c.val) = JSNumber.finite c.val :=
  parseInt_toString c.val c.exact

theorem toString_int_ne_empty (n : Int) : toString n ≠ "" := by
  intro h
  have hdata : (toString n).data = [] := by rw [h]
  match n with
  | Int.ofNat m =>
    have hs : (toString (Int.ofNat m)).data = Nat.toDigits 10 m := rfl
    rw [hs] at hdata
    exact (toDigits_spec m).1 hdata
  | Int.negSucc m =>
    have hs : (toString (Int.negSucc m)).data = '-' :: Nat.toDigits 10 (m + 1) := rfl
    rw [hs] at hdata
    exact List.noConfusion hdata

theorem isRadixDigit_of_decimal (c : Char) (h : isDecimalDigit c = true) :
    isRadixDigit 10 c = true ∧ digitValue c = some (c.toNat - 48) := by
  have hr : 48 ≤ c.toNat ∧ c.toNat ≤ 57 := by simpa [isDecimalDigit] using h
  have hv : digitValue c = some (c.toNat - 48) := by simp [digitValue, hr]
  refine ⟨?_, hv⟩
  simp only [isRadixDigit, hv, decide_eq_true_eq]
  omega

theorem digitsValue_eq_digitsNumber (ds : List Char)
    (hall : ∀ c ∈ ds, isDecimalDigit c = true) : digitsValue 10 ds = digitsNumber ds := by
  induction ds using List.reverseRecOn with
  | nil => rfl
  | append_singleton init c ih =>
    have hc := (isRadixDigit_of_decimal c (hall c (by simp))).2
    have hinit := ih (fun x hx => hall x (by simp [hx]))
    rw [digitsValue_append, hinit, hc]
    simp [digitsNumber, Nat.ofDigits_cons]
    omega

theorem parseInt_decimal (s : String) (h : IsSafeDecimal s) :
    parseInt s = JSNumber.finite (decimalValue s) := by
  obtain ⟨cs⟩ := s
  obtain ⟨hdec, hbound⟩ := h
  unfold IsDecimalString at hdec
  unfold decimalValue at hbound ⊢
  match cs, hdec, hbound with
  | c :: rest, hdec, hbound =>
    simp only [] at hdec hbound ⊢
    by_cases hc : c = '-'
    · simp only [hc, if_true] at hdec hbound ⊢
      match rest, hdec, hbound with
      | d :: more, hdec, hbound =>
        have hall : ∀ x ∈ d :: more, isRadixDigit 10 x = true :=
          fun x hx => (isRadixDigit_of_decimal x (hdec.2 x hx)).1
        have hb : digitsNumber (d :: more) ≤ 2 ^ 53 := by simpa using hbound
        rw [parseInt_negative d more hall, digitsValue_eq_digitsNumber _ hdec.2,
          toNumber_of_exact true _ (roundToDouble_safe _ hb)]
        rfl
    · simp only [hc, if_false] at hdec hbound ⊢
      have hall : ∀ x ∈ c :: rest, isRadixDigit 10 x = true :=
        fun x hx => (isRadixDigit_of_decimal x (hdec x hx)).1
      have hb : digitsNumber (c :: rest) ≤ 2 ^ 53 := by simpa using hbound
      rw [parseInt_unsigned c rest hall, digitsValue_eq_digitsNumber _ hdec,
        toNumber_of_exact false _ (roundToDouble_safe _ hb)]
      rfl

theorem IsDecimalString_ne_empty (s : String) (h : IsDecimalString s) : s ≠ "" := by
  rintro rfl
  exact h

/-! ## Brand effect -/

theorem truthy_iff (s : String) : truthy s = true ↔ s ≠ "" := by
  simp [truthy]

theorem find_agree {α : Type} (l : List α) (p q : α → Bool) (h : ∀ x ∈ l, p x = q x) :
    l.find? p = l.find? q := by
  induction l with
  | nil => rfl
  | cons a rest ih =>
    have ha := h a (by simp)
    simp only [List.find?_cons, ha]
    rw [ih (fun x hx => h x (by simp [hx]))]

theorem Code.val_beq (a b : Code) : (a.val == b.val) = (a == b) := by
  by_cases h : a = b
  · subst h; simp
  · have hv : a.val ≠ b.val := by
      intro hv
      apply h
      cases a; cases b; cases hv; rfl
    simp [h, hv]

theorem Table.get_of_mem (t : Table) (hnodup : (keys t).Nodup) (k : String) (v : Code)
    (hmem : (k, v) ∈ t) : t.get k = some v := by
  induction t with
  | nil => simp at hmem
  | cons e rest ih =>
    simp only [keys, List.map_cons, List.nodup_cons] at hnodup
    rcases List.mem_cons.1 hmem with rfl | hrest
    · simp [Table.get]
    · have hne : e.1 ≠ k := by
        intro heq
        exact hnodup.1 (heq ▸ List.mem_map_of_mem Prod.fst hrest)
      have := ih hnodup.2 hrest
      simpa [Table.get, List.find?_cons, hne] using this

theorem selectedBrandName_first (t : Table) (hnodup : (keys t).Nodup) (brand name : String)
    (c : Code) (hparse : parseInt brand = JSNumber.finite c.val)
    (hfirst : t.find? (fun e => e.2 == c) = some (name, c)) :
    selectedBrandName t brand = some name := by
  unfold selectedBrandName keys
  rw [List.find?_map, hparse]
  have hagree : ∀ e ∈ t,
      ((fun brandName => strictEq (t.get brandName) (JSNumber.finite c.val)) ∘ Prod.fst) e =
        (fun e => e.2 == c) e := by
    intro e he
    simp only [Function.comp, Table.get_of_mem t hnodup e.1 e.2 he, strictEq]
    exact Code.val_beq e.2 c
  rw [find_agree t _ _ hagree, hfirst]
  rfl

theorem brandEffect_empty_brand (s : State) (h : s.formData.brand = "") :
    (brandEffect s).availableModels = [] := by
  have ht : truthy s.formData.brand = false := by simp [truthy, h]
  unfold brandEffect
  simp [ht]

theorem brandEffect_prediction (s : State) : (brandEffect s).prediction = s.prediction := by
  unfold brandEffect
  split
  · split
    · split <;> rfl
    · rfl
  · rfl

theorem brandEffect_error (s : State) : (brandEffect s).error = s.error := by
  unfold brandEffect
  split
  · split
    · split <;> rfl
    · rfl
  · rfl

theorem brandEffect_isLoading (s : State) : (brandEffect s).isLoading = s.isLoading := by
  unfold brandEffect
  split
  · split
    · split <;> rfl
    · rfl
  · rfl

theorem brandEffect_formData (s : State) : (brandEffect s).formData = s.formData := by
  unfold brandEffect
  split
  · split
    · split <;> rfl
    · rfl
  · rfl

theorem brandEffect_mappings (s : State) : (brandEffect s).mappings = s.mappings := by
  unfold brandEffect
  split
  · split
    · split <;> rfl
    · rfl
  · rfl

/-! ## Submit -/

theorem validation_check_iff (d : FormData) :
    requiredFields.any (fun field => !truthy (d.get field)) = true ↔
      Incomplete d := by
  simp [requiredFields, FormData.get, truthy, Incomplete]

theorem submitCheck_incomplete (s : State)
    (h : Incomplete s.formData) :
    submitCheck s =
      ({ submitBegin s with error := validationMessage, isLoading := false }, none) := by
  unfold submitCheck
  simp only [(validation_check_iff s.formData).2 h, if_true]

theorem submitCheck_complete (s : State)
    (h : ¬ Incomplete s.formData) :
    submitCheck s = (submitBegin s, some (buildPayload s.formData)) := by
  unfold submitCheck
  have hfalse : requiredFields.any (fun field => !truthy (s.formData.get field)) = false := by
    cases hany : requiredFields.any (fun field => !truthy (s.formData.get field)) with
    | false => rfl
    | true => exact absurd ((validation_check_iff s.formData).1 hany) h
  simp only [hfalse, Bool.false_eq_true, if_false]

theorem handleSubmit_incomplete (s : State) (result : FetchResult)
    (h : Incomplete s.formData) :
    handleSubmit s result =
      ({ submitBegin s with error := validationMessage, isLoading := false }, []) := by
  unfold handleSubmit
  rw [submitCheck_incomplete s h]

theorem handleSubmit_caught (s : State) (result : FetchResult) (t : State)
    (h : ¬ Incomplete s.formData) (hsettle : submitSettle (submitBegin s) result = (t, none)) :
    handleSubmit s result = (t, [buildPayload s.formData]) := by
  unfold handleSubmit
  rw [submitCheck_complete s h]
  simp only [hsettle]

theorem handleSubmit_timed (s : State) (result : FetchResult) (t : State) (data : Json)
    (h : ¬ Incomplete s.formData)
    (hsettle : submitSettle (submitBegin s) result = (t, some data)) :
    handleSubmit s result = (timerCallback t data, [buildPayload s.formData]) := by
  unfold handleSubmit
  rw [submitCheck_complete s h]
  simp only [hsettle]

theorem handleSubmit_requests (s : State) (result : FetchResult)
    (h : ¬ Incomplete s.formData) :
    (handleSubmit s result).2 = [buildPayload s.formData] := by
  cases hsettle : submitSettle (submitBegin s) result with
  | mk t captured =>
    cases captured with
    | none => rw [handleSubmit_caught s result t h hsettle]
    | some data => rw [handleSubmit_timed s result t data h hsettle]

theorem handleSubmit_rejected (s : State) (message : String)
    (h : ¬ Incomplete s.formData) :
    handleSubmit s (FetchResult.rejected message) =
      (catchError (submitBegin s) message, [buildPayload s.formData]) :=
  handleSubmit_caught s _ _ h rfl

theorem handleSubmit_invalid (s : State) (status : Nat) (message : String)
    (h : ¬ Incomplete s.formData) :
    handleSubmit s (FetchResult.response status (Body.invalid message)) =
      (catchError (submitBegin s) message, [buildPayload s.formData]) :=
  handleSubmit_caught s _ _ h rfl

theorem handleSubmit_null_failure (s : State) (status : Nat) (message : String)
    (h : ¬ Incomplete s.formData) (hstatus : responseOk status = false) :
    handleSubmit s (FetchResult.response status (Body.null message)) =
      (catchError (submitBegin s) message, [buildPayload s.formData]) :=
  handleSubmit_caught s _ _ h (by simp [submitSettle, hstatus])

theorem handleSubmit_null_success (s : State) (status : Nat) (message : String)
    (h : ¬ Incomplete s.formData) (hstatus : responseOk status = true) :
    handleSubmit s (FetchResult.response status (Body.null message)) =
      (submitBegin s, [buildPayload s.formData]) :=
  handleSubmit_timed s _ _ Json.null h (by simp [submitSettle, hstatus, submitBegin])

theorem handleSubmit_failure (s : State) (status : Nat) (data : ResponseData)
    (h : ¬ Incomplete s.formData) (hstatus : responseOk status = false) :
    handleSubmit s (FetchResult.response status (Body.object data)) =
      (catchError (submitBegin s) (thrownMessage status data), [buildPayload s.formData]) :=
  handleSubmit_caught s _ _ h (by simp [submitSettle, hstatus])

theorem handleSubmit_success (s : State) (status : Nat) (data : ResponseData)
    (h : ¬ Incomplete s.formData) (hstatus : responseOk status = true) :
    handleSubmit s (FetchResult.response status (Body.object data)) =
      (timerCallback (submitBegin s) (Json.object data), [buildPayload s.formData]) :=
  handleSubmit_timed s _ _ (Json.object data) h (by simp [submitSettle, hstatus])

theorem submitSettle_caught_state (s t : State) (result : FetchResult)
    (h : submitSettle s result = (t, none)) :
    t.prediction = s.prediction ∧ t.isLoading = false := by
  cases result with
  | rejected message =>
    simp only [submitSettle, Prod.mk.injEq] at h
    rw [← h.1]
    exact ⟨rfl, rfl⟩
  | response status body =>
    cases body with
    | invalid message =>
      simp only [submitSettle, Prod.mk.injEq] at h
      rw [← h.1]
      exact ⟨rfl, rfl⟩
    | null message =>
      cases hok : responseOk status with
      | false =>
        simp only [submitSettle, hok, Bool.not_false, if_true, Prod.mk.injEq] at h
        rw [← h.1]
        exact ⟨rfl, rfl⟩
      | true => simp [submitSettle, hok] at h
    | object data =>
      cases hok : responseOk status with
      | false =>
        simp only [submitSettle, hok, Bool.not_false, if_true, Prod.mk.injEq] at h
        rw [← h.1]
        exact ⟨rfl, rfl⟩
      | true => simp [submitSettle, hok] at h

theorem submitSettle_timed_state (s t : State) (result : FetchResult) (data : Json)
    (h : submitSettle s result = (t, some data)) : t = s := by
  cases result with
  | rejected message => simp [submitSettle] at h
  | response status body =>
    cases body with
    | invalid message => simp [submitSettle] at h
    | null message =>
      cases hok : responseOk status with
      | false => simp [submitSettle, hok] at h
      | true =>
        simp only [submitSettle, hok, Bool.not_true, Bool.false_eq_true, if_false,
          Prod.mk.injEq] at h
        exact h.1.symm
    | object data =>
      cases hok : responseOk status with
      | false => simp [submitSettle, hok] at h
      | true =>
        simp only [submitSettle, hok, Bool.not_true, Bool.false_eq_true, if_false,
          Prod.mk.injEq] at h
        exact h.1.symm

/-! ## Transition system: exclusion of prediction and error -/

theorem Exclusive_brandEffect (s : State) (h : Exclusive s) : Exclusive (brandEffect s) := by
  unfold Exclusive at *
  rw [brandEffect_prediction, brandEffect_error]
  exact h

theorem Exclusive_of_error_empty (s : State) (h : s.error = "") : Exclusive s :=
  ⟨fun _ => h, fun hne => absurd h hne⟩

theorem Exclusive_of_prediction_null (s : State) (h : s.prediction = Prediction.null) :
    Exclusive s :=
  ⟨fun hne => absurd h hne, fun _ => h⟩

theorem Safe_initial : Safe initialSession :=
  ⟨Exclusive_of_error_empty _ rfl, by decide, by decide, by decide,
    fun _ => ⟨rfl, rfl, rfl, rfl, rfl⟩⟩

theorem Incomplete_of_brand_empty (d : FormData) (h : d.brand = "") : Incomplete d :=
  Or.inl h

theorem step_settle_idle (σ : Session) (result : FetchResult) (ha : σ.awaiting = 0) :
    σ.step (Event.settle result) = σ := by
  simp [Session.step, ha]

theorem step_settle_caught (σ : Session) (result : FetchResult) (n : Nat) (t : State)
    (ha : σ.awaiting = n + 1) (hs : submitSettle σ.state result = (t, none)) :
    σ.step (Event.settle result) = { σ with state := t, awaiting := n } := by
  simp [Session.step, ha, hs]

theorem step_settle_timed (σ : Session) (result : FetchResult) (n : Nat) (t : State)
    (data : Json) (ha : σ.awaiting = n + 1)
    (hs : submitSettle σ.state result = (t, some data)) :
    σ.step (Event.settle result) =
      { σ with state := t, awaiting := n, timers := σ.timers ++ [data] } := by
  simp [Session.step, ha, hs]

theorem step_timer_idle (σ : Session) (ht : σ.timers = []) : σ.step Event.timer = σ := by
  simp [Session.step, ht]

theorem step_timer_due (σ : Session) (data : Json) (rest : List Json)
    (ht : σ.timers = data :: rest) :
    σ.step Event.timer = { σ with state := timerCallback σ.state data, timers := rest } := by
  simp [Session.step, ht]

theorem step_submit_incomplete (σ : Session) (h : Incomplete σ.state.formData) :
    σ.step Event.submitEvent =
      { σ with
        state := { submitBegin σ.state with error := validationMessage, isLoading := false } } := by
  simp [Session.step, submitCheck_incomplete σ.state h]

theorem step_submit_complete (σ : Session) (h : ¬ Incomplete σ.state.formData) :
    σ.step Event.submitEvent =
      { σ with state := submitBegin σ.state, awaiting := σ.awaiting + 1 } := by
  simp [Session.step, submitCheck_complete σ.state h]

theorem step_load_settled (σ : Session) (event : Event) (hp : σ.loadPending = false)
    (hevent : event = Event.mappingsFailed ∨ ∃ data, event = Event.mappingsLoaded data) :
    σ.step event = σ := by
  rcases hevent with rfl | ⟨data, rfl⟩ <;> simp [Session.step, hp]

theorem step_load_ok (σ : Session) (data : Mappings) (hp : σ.loadPending = true) :
    σ.step (Event.mappingsLoaded data) =
      { σ with state := fetchMappings σ.state (some data), loadPending := false } := by
  simp [Session.step, hp]

theorem step_load_failed (σ : Session) (hp : σ.loadPending = true) :
    σ.step Event.mappingsFailed =
      { σ with state := fetchMappings σ.state none, loadPending := false } := by
  simp [Session.step, hp]

theorem Safe_step (σ : Session) (event : Event) (h : Safe σ)
    (hallowed : allowedByControls σ.state event = true) : Safe (σ.step event) := by
  obtain ⟨hex, hone, hbusy, hnull, hload⟩ := h
  cases event with
  | mappingsLoaded data =>
    cases hp : σ.loadPending with
    | false =>
      rw [step_load_settled σ _ hp (Or.inr ⟨data, rfl⟩)]
      exact ⟨hex, hone, hbusy, hnull, hload⟩
    | true =>
      rw [step_load_ok σ data hp]
      exact ⟨hex, hone, hbusy, hnull, fun hc => Bool.noConfusion hc⟩
  | mappingsFailed =>
    cases hp : σ.loadPending with
    | false =>
      rw [step_load_settled σ _ hp (Or.inl rfl)]
      exact ⟨hex, hone, hbusy, hnull, hload⟩
    | true =>
      rw [step_load_failed σ hp]
      obtain ⟨_, _, hpred, ha, ht⟩ := hload hp
      refine ⟨Exclusive_of_prediction_null _ hpred, hone, ?_, hnull,
        fun hc => Bool.noConfusion hc⟩
      intro hpos
      dsimp only at hpos
      rw [ha, ht] at hpos
      exact absurd hpos (by decide)
  | render =>
    refine ⟨Exclusive_brandEffect σ.state hex, hone, ?_, ?_, ?_⟩
    · intro hpos
      show (brandEffect σ.state).isLoading = true ∧ (brandEffect σ.state).error = ""
      rw [brandEffect_isLoading, brandEffect_error]
      exact hbusy hpos
    · intro hpos
      show (brandEffect σ.state).prediction = Prediction.null
      rw [brandEffect_prediction]
      exact hnull hpos
    · intro hp
      show (brandEffect σ.state).mappings.brands = [] ∧
        (brandEffect σ.state).formData.brand = "" ∧
        (brandEffect σ.state).prediction = Prediction.null ∧ σ.awaiting = 0 ∧ σ.timers = []
      rw [brandEffect_mappings, brandEffect_formData, brandEffect_prediction]
      exact hload hp
  | change name value =>
    refine ⟨Exclusive_of_error_empty _ rfl, hone, fun hpos => ⟨(hbusy hpos).1, rfl⟩,
      fun _ => rfl, ?_⟩
    intro hp
    obtain ⟨hb, hbrand, _, ha, ht⟩ := hload hp
    refine ⟨hb, ?_, rfl, ha, ht⟩
    show (handleChange σ.state name value).formData.brand = ""
    cases name with
    | brand =>
      have hv : value = "" := by
        simpa [allowedByControls, hb] using hallowed
      rw [hv]
      rfl
    | model => exact hbrand
    | location => exact hbrand
    | year => exact hbrand
    | kilometers => exact hbrand
    | power => exact hbrand
    | owner => exact hbrand
  | submitEvent =>
    have hl : σ.state.isLoading = false := by
      simpa [allowedByControls] using hallowed
    have hidle : σ.awaiting + σ.timers.length = 0 := by
      by_contra hne
      have hflag := (hbusy (Nat.pos_of_ne_zero hne)).1
      rw [hl] at hflag
      exact absurd hflag (by decide)
    by_cases hinc : Incomplete σ.state.formData
    · rw [step_submit_incomplete σ hinc]
      refine ⟨Exclusive_of_prediction_null _ rfl, hone, ?_, fun _ => rfl, ?_⟩
      · intro hpos
        dsimp only at hpos
        omega
      · intro hp
        obtain ⟨hb, hbrand, _, ha, ht⟩ := hload hp
        exact ⟨hb, hbrand, rfl, ha, ht⟩
    · rw [step_submit_complete σ hinc]
      refine ⟨Exclusive_of_error_empty _ rfl, ?_, fun _ => ⟨rfl, rfl⟩, fun _ => rfl, ?_⟩
      · dsimp only
        omega
      · intro hp
        exact absurd (Incomplete_of_brand_empty _ (hload hp).2.1) hinc
  | settle result =>
    cases ha : σ.awaiting with
    | zero =>
      rw [step_settle_idle σ result ha]
      exact ⟨hex, hone, hbusy, hnull, hload⟩
    | succ n =>
      have hpos : 0 < σ.awaiting + σ.timers.length := by omega
      have hn : n = 0 := by omega
      have ht : σ.timers.length = 0 := by omega
      have hp : σ.state.prediction = Prediction.null := hnull (by omega)
      have hnotload : σ.loadPending ≠ true := by
        intro hc
        have := (hload hc).2.2.2.1
        omega
      cases hsettle : submitSettle σ.state result with
      | mk t captured =>
        cases captured with
        | none =>
          obtain ⟨htp, _⟩ := submitSettle_caught_state σ.state t result hsettle
          rw [step_settle_caught σ result n t ha hsettle]
          refine ⟨Exclusive_of_prediction_null _ (htp.trans hp), ?_, ?_, ?_, ?_⟩
          · dsimp only; omega
          · intro hpos2; dsimp only at hpos2; omega
          · intro hpos2; dsimp only at hpos2; omega
          · intro hc; exact absurd hc hnotload
        | some data =>
          have hts := submitSettle_timed_state σ.state t result data hsettle
          rw [step_settle_timed σ result n t data ha hsettle, hts]
          refine ⟨hex, ?_, fun _ => hbusy hpos, ?_, ?_⟩
          · simp only [List.length_append, List.length_singleton]; omega
          · intro hpos2; dsimp only at hpos2; omega
          · intro hc; exact absurd hc hnotload
  | timer =>
    cases htl : σ.timers with
    | nil =>
      rw [step_timer_idle σ htl]
      exact ⟨hex, hone, hbusy, hnull, hload⟩
    | cons data rest =>
      rw [step_timer_due σ data rest htl]
      rw [htl] at hone hbusy
      simp only [List.length_cons] at hone hbusy
      have herr : σ.state.error = "" := (hbusy (by omega)).2
      have hnotload : σ.loadPending ≠ true := by
        intro hc
        have := (hload hc).2.2.2.2
        rw [htl] at this
        exact List.noConfusion this
      have hterr : (timerCallback σ.state data).error = "" := by
        cases data <;> exact herr
      refine ⟨Exclusive_of_error_empty _ hterr, ?_, ?_, ?_, ?_⟩
      · dsimp only; omega
      · intro hpos2; dsimp only at hpos2; omega
      · intro hpos2; dsimp only at hpos2; omega
      · intro hc; exact absurd hc hnotload

theorem Safe_run (events : List Event) :
    ∀ σ, Safe σ → throughControls σ events = true → Safe (σ.run events) := by
  induction events with
  | nil => intro σ h _; exact h
  | cons event rest ih =>
    intro σ h hthrough
    simp only [throughControls, Bool.and_eq_true] at hthrough
    exact ih _ (Safe_step σ event h hthrough.1) hthrough.2

/-! ## Claims about the brand effect -/

/-- C1 (as stated, refuted): the only brand is named by the empty string and
has code 1; with the form's brand set to the decimal string of 1 the effect
leaves `availableModels` empty, although the entry `("x", 2)` of `models`
starts with that name. -/
theorem C1_counterexample_empty_brand_name :
    (keys emptyNameState.mappings.brands).Nodup ∧
    ("", code1) ∈ emptyNameState.mappings.brands ∧
    emptyNameState.formData.brand = toString code1.val ∧
    (brandEffect emptyNameState).availableModels = [] ∧
    (emptyNameState.mappings.models.getD []).filter (fun e => startsWith e.1 "") =
      [("x", code2)] ∧
    (brandEffect emptyNameState).availableModels ≠
      (emptyNameState.mappings.models.getD []).filter (fun e => startsWith e.1 "") := by
  decide

/-- C1 (amended): when `name` is the first key of `brands` whose value is `c`
and `name` is not the empty string, the brand effect run with the form's brand
set to the decimal string of `c` sets `availableModels` to exactly the entries
of `models` whose name starts with `name`, in the order of `models`. -/
theorem C1_brandEffect_filters_models (s : State) (name : String) (c : Code)
    (hnodup : (keys s.mappings.brands).Nodup)
    (hfirst : s.mappings.brands.find? (fun e => e.2 == c) = some (name, c))
    (hname : name ≠ "")
    (hbrand : s.formData.brand = toString c.val) :
    (brandEffect s).availableModels =
      (s.mappings.models.getD []).filter (fun e => startsWith e.1 name) := by
  have htruthy : truthy s.formData.brand = true := by
    rw [truthy_iff, hbrand]
    exact toString_int_ne_empty c.val
  have hparse : parseInt s.formData.brand = JSNumber.finite c.val := by
    rw [hbrand]
    exact parseInt_code c
  have hsel := selectedBrandName_first s.mappings.brands hnodup s.formData.brand name c
    hparse hfirst
  have hn : truthy name = true := (truthy_iff name).2 hname
  unfold brandEffect
  cases hm : s.mappings.models with
  | none => simp [htruthy]
  | some models => simp [htruthy, hsel, hn]

/-- C1 witness: the worked example, brand `honda` with code 1. -/
theorem C1_witness_honda :
    (brandEffect exampleState).availableModels = [("honda cb", code10)] :=
  C1_brandEffect_filters_models exampleState "honda" code1 (by decide) (by decide)
    (by decide) (by decide)

/-- C2 (the code at the failing input): with brands `honda: 1`, the form's
brand `"7"` and the list of `honda` still held, brand code 7 is the value of no
key of `brands`, yet the effect leaves the held list in place; with no brand
selected the same held list is cleared. -/
theorem C2_stale_models_kept :
    staleState.formData.brand = "7" ∧
    (∀ e ∈ staleState.mappings.brands,
      parseInt staleState.formData.brand ≠ JSNumber.finite e.2.val) ∧
    staleState.availableModels = [("honda cb", code10)] ∧
    (brandEffect staleState).availableModels = [("honda cb", code10)] ∧
    (brandEffect staleState).availableModels ≠ [] ∧
    (brandEffect clearedState).availableModels = [] := by
  decide

/-! ## Claims about submit -/

/-- C3: a submit ends with the validation message as error, the prediction
absent and no request issued if and only if at least one of brand, model,
location, year, kilometers, power is the empty string; and all six are
non-empty if and only if the part of submit before the request leaves the
error empty (no validation error is raised) and exactly one request, carrying
the payload built from the form, is issued. -/
theorem C3_submit_validates_required_fields (s : State) (result : FetchResult) :
    (((handleSubmit s result).1.error = validationMessage ∧
        (handleSubmit s result).1.prediction = Prediction.null ∧
        (handleSubmit s result).2 = []) ↔
      (s.formData.brand = "" ∨ s.formData.model = "" ∨ s.formData.location = "" ∨
        s.formData.year = "" ∨ s.formData.kilometers = "" ∨ s.formData.power = "")) ∧
    ((s.formData.brand ≠ "" ∧ s.formData.model ≠ "" ∧ s.formData.location ≠ "" ∧
        s.formData.year ≠ "" ∧ s.formData.kilometers ≠ "" ∧ s.formData.power ≠ "") ↔
      ((submitCheck s).1.error = "" ∧
        (handleSubmit s result).2 = [buildPayload s.formData] ∧
        (handleSubmit s result).2.length = 1)) := by
  by_cases h : Incomplete s.formData
  · have hs := handleSubmit_incomplete s result h
    have hc := submitCheck_incomplete s h
    have hmsg : validationMessage ≠ "" := by decide
    refine ⟨⟨fun _ => h, fun _ => ?_⟩, ⟨fun hall => ?_, fun hres => ?_⟩⟩
    · rw [hs]
      exact ⟨rfl, rfl, rfl⟩
    · unfold Incomplete at h
      tauto
    · rw [hc] at hres
      exact absurd hres.1 hmsg
  · have hreq := handleSubmit_requests s result h
    have hc := submitCheck_complete s h
    refine ⟨⟨fun hres => ?_, fun hinc => absurd hinc h⟩, ⟨fun _ => ?_, fun _ => ?_⟩⟩
    · rw [hreq] at hres
      exact absurd hres.2.2 (by simp)
    · rw [hc, hreq]
      exact ⟨rfl, rfl, rfl⟩
    · unfold Incomplete at h
      tauto

/-- C4: when the form's owner is one of the five options, every payload that
submit sends has each of its four owner indicators equal to 0 or 1, at most one
of them equal to 1, and all four equal to 0 if and only if the owner is
"First Owner". -/
theorem C4_owner_indicators (s : State) (result : FetchResult) (payload : Payload)
    (howner : s.formData.owner ∈ ownerOptions)
    (hsent : payload ∈ (handleSubmit s result).2) :
    (payload.owner_Second_Owner = 0 ∨ payload.owner_Second_Owner = 1) ∧
    (payload.owner_Third_Owner = 0 ∨ payload.owner_Third_Owner = 1) ∧
    (payload.owner_Fourth_Owner_Or_More = 0 ∨ payload.owner_Fourth_Owner_Or_More = 1) ∧
    (payload.owner_Unknown = 0 ∨ payload.owner_Unknown = 1) ∧
    payload.owner_Second_Owner + payload.owner_Third_Owner +
      payload.owner_Fourth_Owner_Or_More + payload.owner_Unknown ≤ 1 ∧
    ((payload.owner_Second_Owner = 0 ∧ payload.owner_Third_Owner = 0 ∧
        payload.owner_Fourth_Owner_Or_More = 0 ∧ payload.owner_Unknown = 0) ↔
      s.formData.owner = "First Owner") := by
  have hpayload : payload = buildPayload s.formData := by
    by_cases h : Incomplete s.formData
    · rw [handleSubmit_incomplete s result h] at hsent
      simp at hsent
    · rw [handleSubmit_requests s result h] at hsent
      simpa using hsent
  subst hpayload
  simp only [ownerOptions, List.mem_cons, List.mem_singleton, List.not_mem_nil, or_false]
    at howner
  have e1 : (buildPayload s.formData).owner_Second_Owner =
      indicator s.formData.owner "Second Owner" := rfl
  have e2 : (buildPayload s.formData).owner_Third_Owner =
      indicator s.formData.owner "Third Owner" := rfl
  have e3 : (buildPayload s.formData).owner_Fourth_Owner_Or_More =
      indicator s.formData.owner "Fourth Owner Or More" := rfl
  have e4 : (buildPayload s.formData).owner_Unknown =
      indicator s.formData.owner "Unknown" := rfl
  rw [e1, e2, e3, e4]
  rcases howner with h | h | h | h | h <;> rw [h] <;> decide

/-- C4 witness: owner "Second Owner"; the payload sent has indicators summing
to at most 1 and not all 0. -/
theorem C4_witness_second_owner :
    secondOwnerState.formData.owner ∈ ownerOptions ∧
    buildPayload secondOwnerState.formData ∈
      (handleSubmit secondOwnerState (FetchResult.rejected "offline")).2 ∧
    (buildPayload secondOwnerState.formData).owner_Second_Owner +
      (buildPayload secondOwnerState.formData).owner_Third_Owner +
      (buildPayload secondOwnerState.formData).owner_Fourth_Owner_Or_More +
      (buildPayload secondOwnerState.formData).owner_Unknown ≤ 1 ∧
    (((buildPayload secondOwnerState.formData).owner_Second_Owner = 0 ∧
        (buildPayload secondOwnerState.formData).owner_Third_Owner = 0 ∧
        (buildPayload secondOwnerState.formData).owner_Fourth_Owner_Or_More = 0 ∧
        (buildPayload secondOwnerState.formData).owner_Unknown = 0) ↔
      secondOwnerState.formData.owner = "First Owner") :=
  ⟨by decide, by decide,
   (C4_owner_indicators secondOwnerState (FetchResult.rejected "offline")
      (buildPayload secondOwnerState.formData) (by decide) (by decide)).2.2.2.2.1,
   (C4_owner_indicators secondOwnerState (FetchResult.rejected "offline")
      (buildPayload secondOwnerState.formData) (by decide) (by decide)).2.2.2.2.2⟩

/-- C5 (as stated, refuted): the year `"9007199254740993"` is a decimal integer
string and denotes 2^53 + 1, the form passes validation, and the payload sent
carries the year 9007199254740992, the nearest double, not the integer the
string denotes. -/
theorem C5_counterexample_year_beyond_doubles :
    IsDecimalString bigYearState.formData.year ∧
    decimalValue bigYearState.formData.year = 9007199254740993 ∧
    ¬ Incomplete bigYearState.formData ∧
    (handleSubmit bigYearState (FetchResult.rejected "offline")).2 =
      [{ brand := JSNumber.finite 1, model := JSNumber.finite 10,
         location := JSNumber.finite 5, year := JSNumber.finite 9007199254740992,
         kilometers := JSNumber.finite 25000, power := JSNumber.finite 150,
         owner_Second_Owner := 0, owner_Third_Owner := 0,
         owner_Fourth_Owner_Or_More := 0, owner_Unknown := 0 }] ∧
    (buildPayload bigYearState.formData).year ≠
      JSNumber.finite (decimalValue bigYearState.formData.year) := by
  decide

/-- C5 (amended): when brand, model, location, year, kilometers and power are
decimal integer strings that denote integers of magnitude at most 2^53, the
form passes validation and submit sends exactly one payload, of ten fields:
brand, model, location, year, kilometers and power equal to the integers those
strings denote, and the four owner indicators. -/
theorem C5_payload_of_decimal_form (s : State) (result : FetchResult)
    (hbrand : IsSafeDecimal s.formData.brand)
    (hmodel : IsSafeDecimal s.formData.model)
    (hlocation : IsSafeDecimal s.formData.location)
    (hyear : IsSafeDecimal s.formData.year)
    (hkilometers : IsSafeDecimal s.formData.kilometers)
    (hpower : IsSafeDecimal s.formData.power) :
    ¬ Incomplete s.formData ∧
    (handleSubmit s result).2 =
      [{ brand := JSNumber.finite (decimalValue s.formData.brand)
         model := JSNumber.finite (decimalValue s.formData.model)
         location := JSNumber.finite (decimalValue s.formData.location)
         year := JSNumber.finite (decimalValue s.formData.year)
         kilometers := JSNumber.finite (decimalValue s.formData.kilometers)
         power := JSNumber.finite (decimalValue s.formData.power)
         owner_Second_Owner := indicator s.formData.owner "Second Owner"
         owner_Third_Owner := indicator s.formData.owner "Third Owner"
         owner_Fourth_Owner_Or_More := indicator s.formData.owner "Fourth Owner Or More"
         owner_Unknown := indicator s.formData.owner "Unknown" }] := by
  have h : ¬ Incomplete s.formData := by
    unfold Incomplete
    have h1 := IsDecimalString_ne_empty _ hbrand.1
    have h2 := IsDecimalString_ne_empty _ hmodel.1
    have h3 := IsDecimalString_ne_empty _ hlocation.1
    have h4 := IsDecimalString_ne_empty _ hyear.1
    have h5 := IsDecimalString_ne_empty _ hkilometers.1
    have h6 := IsDecimalString_ne_empty _ hpower.1
    tauto
  refine ⟨h, ?_⟩
  rw [handleSubmit_requests s result h]
  simp only [buildPayload, parseInt_decimal _ hbrand, parseInt_decimal _ hmodel,
    parseInt_decimal _ hlocation, parseInt_decimal _ hyear, parseInt_decimal _ hkilometers,
    parseInt_decimal _ hpower]

/-- C5 witness: the form of the worked example yields the payload of the
worked example. -/
theorem C5_witness_worked_example :
    IsSafeDecimal exampleState.formData.brand ∧
    IsSafeDecimal exampleState.formData.kilometers ∧
    (handleSubmit exampleState
        (FetchResult.response 200
          (Body.object { prediction := some 125000, error := none }))).2 =
      [{ brand := JSNumber.finite 1, model := JSNumber.finite 10,
         location := JSNumber.finite 5, year := JSNumber.finite 2020,
         kilometers := JSNumber.finite 25000, power := JSNumber.finite 150,
         owner_Second_Owner := 0, owner_Third_Owner := 0,
         owner_Fourth_Owner_Or_More := 0, owner_Unknown := 0 }] :=
  ⟨by decide, by decide,
   (C5_payload_of_decimal_form exampleState _ (by decide) (by decide) (by decide)
      (by decide) (by decide) (by decide)).2⟩

/-- C6 (as stated, refuted): a response with status 500 whose body is a page,
not JSON: parsing the body (line 124) throws before the status is tested, and
submit ends with the parser's message as error, which is neither a message
carried by the body nor the message with the HTTP status. -/
theorem C6_counterexample_unparsable_body :
    ¬ Incomplete exampleState.formData ∧ responseOk 500 = false ∧
    (handleSubmit exampleState (FetchResult.response 500 htmlBody)).1.error =
      "Unexpected token < in JSON at position 0" ∧
    (handleSubmit exampleState (FetchResult.response 500 htmlBody)).1.error ≠
      "HTTP error! Status: " ++ toString 500 := by
  decide

/-- C6 (amended): for a form that passes validation and a response whose
status is not a success, submit ends with the prediction `null`; when the body
is JSON other than `null`, the error is the body's error message when the body
carries a non-empty one, and the generic message that ends with the HTTP status
otherwise (no `error` field, or an empty one). -/
theorem C6_failure_response_sets_error (s : State) (status : Nat) (body : Body)
    (hvalid : ¬ Incomplete s.formData) (hstatus : responseOk status = false) :
    (handleSubmit s (FetchResult.response status body)).1.prediction = Prediction.null ∧
    (∀ data message, body = Body.object data → data.error = some message → message ≠ "" →
      (handleSubmit s (FetchResult.response status body)).1.error = message) ∧
    (∀ data, body = Body.object data → (data.error = none ∨ data.error = some "") →
      (handleSubmit s (FetchResult.response status body)).1.error =
        "HTTP error! Status: " ++ toString status) := by
  refine ⟨?_, ?_, ?_⟩
  · cases body with
    | invalid message => rw [handleSubmit_invalid s status message hvalid]; rfl
    | null message => rw [handleSubmit_null_failure s status message hvalid hstatus]; rfl
    | object data => rw [handleSubmit_failure s status data hvalid hstatus]; rfl
  · intro data message hbody hmsg hne
    subst hbody
    have ht : truthy message = true := (truthy_iff message).2 hne
    rw [handleSubmit_failure s status data hvalid hstatus]
    simp [catchError, thrownMessage, hmsg, ht]
  · intro data hbody herr
    subst hbody
    rw [handleSubmit_failure s status data hvalid hstatus]
    rcases herr with hnone | hempty
    · simp [catchError, thrownMessage, hnone]
    · simp [catchError, thrownMessage, hempty, truthy]

/-- C6 witness: status 400 with body `{error: "bad input"}` ends with error
"bad input" and prediction `null`; status 400 with no error field ends with the
generic message. -/
theorem C6_witness_bad_input :
    ¬ Incomplete exampleState.formData ∧ responseOk 400 = false ∧
    (handleSubmit exampleState
        (FetchResult.response 400
          (Body.object { prediction := none, error := some "bad input" }))).1.prediction
      = Prediction.null ∧
    (handleSubmit exampleState
        (FetchResult.response 400
          (Body.object { prediction := none, error := some "bad input" }))).1.error
      = "bad input" ∧
    (handleSubmit exampleState
        (FetchResult.response 400
          (Body.object { prediction := none, error := none }))).1.error
      = "HTTP error! Status: 400" :=
  ⟨by decide, by decide,
   (C6_failure_response_sets_error exampleState 400
      (Body.object { prediction := none, error := some "bad input" })
      (by decide) (by decide)).1,
   (C6_failure_response_sets_error exampleState 400
      (Body.object { prediction := none, error := some "bad input" })
      (by decide) (by decide)).2.1 _ "bad input" rfl rfl (by decide),
   (C6_failure_response_sets_error exampleState 400
      (Body.object { prediction := none, error := none })
      (by decide) (by decide)).2.2 _ rfl (Or.inl rfl)⟩

/-- C7: for a form that passes validation and a successful response whose body
carries the prediction `p`, submit ends with prediction `p`, with no error (the
empty string, the value the error state holds when there is none) and not
loading, whatever the prediction and the error were before. -/
theorem C7_success_response_stores_prediction (s : State) (status : Nat)
    (data : ResponseData) (p : Int)
    (hvalid : ¬ Incomplete s.formData) (hstatus : responseOk status = true)
    (hbody : data.prediction = some p) :
    (handleSubmit s (FetchResult.response status (Body.object data))).1.prediction =
      Prediction.number p ∧
    (handleSubmit s (FetchResult.response status (Body.object data))).1.error = "" ∧
    (handleSubmit s (FetchResult.response status (Body.object data))).1.isLoading = false := by
  rw [handleSubmit_success s status data hvalid hstatus]
  simp [timerCallback, submitBegin, hbody]

/-- C7 witness: the response `{prediction: 125000}` to a form that held an
earlier error and an earlier prediction. -/
theorem C7_witness_125000 :
    (handleSubmit { exampleState with error := "bad input", prediction := Prediction.number 7 }
        (FetchResult.response 200
          (Body.object { prediction := some 125000, error := none }))).1.prediction
      = Prediction.number 125000 ∧
    (handleSubmit { exampleState with error := "bad input", prediction := Prediction.number 7 }
        (FetchResult.response 200
          (Body.object { prediction := some 125000, error := none }))).1.error
      = "" :=
  ⟨(C7_success_response_stores_prediction
      { exampleState with error := "bad input", prediction := Prediction.number 7 } 200
      { prediction := some 125000, error := none } 125000 (by decide) (by decide) rfl).1,
   (C7_success_response_stores_prediction
      { exampleState with error := "bad input", prediction := Prediction.number 7 } 200
      { prediction := some 125000, error := none } 125000 (by decide) (by decide) rfl).2.1⟩

/-! ## Claims about the change handler, the loading flag and exclusion -/

/-- C8: `handleChange` sets the named field to the new value, leaves every
other form field unchanged except that `model` becomes the empty string when
the named field is `brand`, and leaves the error empty and the prediction
`null` whatever they were; changing `brand` always yields an empty `model`. -/
theorem C8_handleChange_frame (s : State) (name : Field) (value : String) :
    (handleChange s name value).formData.get name = value ∧
    (∀ other, other ≠ name →
      (handleChange s name value).formData.get other =
        if name = Field.brand ∧ other = Field.model then "" else s.formData.get other) ∧
    (handleChange s name value).error = "" ∧
    (handleChange s name value).prediction = Prediction.null ∧
    (handleChange s Field.brand value).formData.model = "" ∧
    (handleChange s Field.brand value).formData.brand = value := by
  refine ⟨?_, ?_, rfl, rfl, rfl, rfl⟩
  · cases name <;> rfl
  · intro other hne
    cases name <;> cases other <;> first | rfl | exact absurd rfl hne

/-- C9 (as stated, refuted): the form passes validation and the response is a
success whose body is `null`; the timer callback throws on reading
`data.prediction` before it clears the flag, so the run of submit ends with
the flag still true and no prediction stored. -/
theorem C9_counterexample_null_body :
    ¬ Incomplete exampleState.formData ∧ responseOk 200 = true ∧
    (handleSubmit exampleState (FetchResult.response 200 nullBody)).1.isLoading = true ∧
    (handleSubmit exampleState (FetchResult.response 200 nullBody)).1.prediction =
      Prediction.null ∧
    (handleSubmit exampleState (FetchResult.response 200 nullBody)).1.error = "" := by
  decide

/-- C9 (amended): the loading flag is false initially; the first thing submit
does sets it to true, and it is still true when the request is issued; it is
false at the end of every run of submit except one answered by a success whose
body is `null`: after a validation failure, after a non-success response, after
a rejected request or a body that is not JSON, and after the timer callback of
a success has stored what the body carries; the mappings load, the change
handler and the brand effect leave the flag as it was. -/
theorem C9_loading_flag (s : State) :
    initialState.isLoading = false ∧
    (submitBegin s).isLoading = true ∧
    (¬ Incomplete s.formData → (submitCheck s).1.isLoading = true) ∧
    (Incomplete s.formData → (submitCheck s).1.isLoading = false) ∧
    (∀ result,
      (∀ status message, result = FetchResult.response status (Body.null message) →
        responseOk status = false) →
      (handleSubmit s result).1.isLoading = false) ∧
    (∀ result t, submitSettle s result = (t, none) → t.isLoading = false) ∧
    (∀ data, (timerCallback s (Json.object data)).isLoading = false) ∧
    (∀ name value, (handleChange s name value).isLoading = s.isLoading) ∧
    (∀ outcome, (fetchMappings s outcome).isLoading = s.isLoading) ∧
    (brandEffect s).isLoading = s.isLoading := by
  refine ⟨rfl, rfl, ?_, ?_, ?_, ?_, fun _ => rfl, fun _ _ => rfl, ?_,
    brandEffect_isLoading s⟩
  · intro h
    rw [submitCheck_complete s h]
    rfl
  · intro h
    rw [submitCheck_incomplete s h]
  · intro result hnull
    by_cases h : Incomplete s.formData
    · rw [handleSubmit_incomplete s result h]
    · cases result with
      | rejected message => rw [handleSubmit_rejected s message h]; rfl
      | response status body =>
        cases body with
        | invalid message => rw [handleSubmit_invalid s status message h]; rfl
        | null message =>
          rw [handleSubmit_null_failure s status message h (hnull status message rfl)]
          rfl
        | object data =>
          cases hok : responseOk status with
          | false => rw [handleSubmit_failure s status data h hok]; rfl
          | true => rw [handleSubmit_success s status data h hok]; rfl
  · intro result t hsettle
    exact (submitSettle_caught_state s t result hsettle).2
  · intro outcome
    cases outcome <;> rfl

/-- C9 witness: the worked example answered with status 400 and with a
prediction ends not loading. -/
theorem C9_witness_flag_cleared :
    (handleSubmit exampleState
        (FetchResult.response 400
          (Body.object { prediction := none, error := some "bad input" }))).1.isLoading
      = false ∧
    (handleSubmit exampleState
        (FetchResult.response 200
          (Body.object { prediction := some 125000, error := none }))).1.isLoading
      = false :=
  ⟨(C9_loading_flag exampleState).2.2.2.2.1 _
      (fun _ _ h => FetchResult.noConfusion h (fun _ hb => Body.noConfusion hb)),
   (C9_loading_flag exampleState).2.2.2.2.1 _
      (fun _ _ h => FetchResult.noConfusion h (fun _ hb => Body.noConfusion hb))⟩

/-! ## Claim about the exclusion of prediction and error -/

/-- C10 (as stated, refuted): the mappings load, the form is filled through the
controls and submitted (these first ten events are all allowed by the controls
and leave the flag up), and submit runs a second time before either request
settles; the first request is answered with a prediction, the second is
refused, and when the timer of the first fires the state holds the prediction
125000 together with the error "bad input". -/
theorem C10_counterexample_overlapping_submissions :
    throughControls initialSession (doubleSubmitEvents.take 10) = true ∧
    (initialSession.run (doubleSubmitEvents.take 10)).state.isLoading = true ∧
    doubleSubmitEvents.drop 10 =
      [Event.submitEvent,
       Event.settle (FetchResult.response 200
         (Body.object { prediction := some 125000, error := none })),
       Event.settle (FetchResult.response 400
         (Body.object { prediction := none, error := some "bad input" })),
       Event.timer] ∧
    (initialSession.run doubleSubmitEvents).state.prediction = Prediction.number 125000 ∧
    (initialSession.run doubleSubmitEvents).state.error = "bad input" ∧
    (initialSession.run doubleSubmitEvents).state.error ≠ "" := by
  decide

/-- C10 (amended): in every state reached from the initial state by the one
settling of the mappings load, renders, field changes and the tasks of
submissions, where every event is one the rendered controls allow (a brand is
picked only when the brand select has options, and a submission starts only
while the loading flag is false), the prediction and the error are not both
present: a non-null prediction comes with the empty error, a non-empty error
with the `null` prediction. -/
theorem C10_prediction_error_exclusive (events : List Event)
    (hthrough : throughControls initialSession events = true) :
    ((initialSession.run events).state.prediction ≠ Prediction.null →
      (initialSession.run events).state.error = "") ∧
    ((initialSession.run events).state.error ≠ "" →
      (initialSession.run events).state.prediction = Prediction.null) :=
  (Safe_run events initialSession Safe_initial hthrough).1

/-- C10 witness: a refused and then an answered submission end with the
prediction and no error; a failed mappings load followed by a submission ends
with an error and no prediction. -/
theorem C10_witness_two_runs :
    throughControls initialSession twoSubmissionsEvents = true ∧
    (initialSession.run twoSubmissionsEvents).state.prediction = Prediction.number 125000 ∧
    (initialSession.run twoSubmissionsEvents).state.error = "" ∧
    throughControls initialSession failedLoadEvents = true ∧
    (initialSession.run failedLoadEvents).state.error = validationMessage ∧
    (initialSession.run failedLoadEvents).state.prediction = Prediction.null :=
  ⟨by decide, by decide,
   (C10_prediction_error_exclusive twoSubmissionsEvents (by decide)).1 (by decide),
   by decide, by decide,
   (C10_prediction_error_exclusive failedLoadEvents (by decide)).2 (by decide)⟩

end BikeForm
